import Mathlib

/-!
Verification of the LLM toolkit core: a shallow embedding of the provider
facade, the provider adapters (OpenAI, Anthropic, Ollama, UBC LLM Sandbox),
and the conversation holder, together with proofs of the specified
properties of options merging, system-prompt handling, streaming
accumulation, passthrough forwarding, capability checks, configuration
validation, and history management.
-/

namespace LLMToolkit

/-- Role of a conversation message (types.ts, `Message.role`). -/
inductive Role where
  | user
  | assistant
  | system
deriving DecidableEq, Repr

/-- One conversation turn (types.ts, `Message`). -/
structure Message where
  role : Role
  content : String
  timestamp : Option String := none
deriving DecidableEq, Repr

/-- A JavaScript option value as it occurs in an `LLMOptions` bag:
a string, a number, or a boolean. -/
inductive LLMValue where
  | str (s : String)
  | num (q : ℚ)
  | bool (b : Bool)
deriving DecidableEq, Repr

/-- JavaScript truthiness of an option value: empty strings, zero and
`false` are falsy. -/
def LLMValue.truthy : LLMValue → Bool
  | .str s => !(s == "")
  | .num q => !(q == 0)
  | .bool b => b

/-- A JavaScript object modelled as an ordered list of key-value pairs.
Object spread `\x7b...a, ...b\x7d` is modelled by list append `a ++ b`;
entries appearing later in the list shadow earlier ones with the same key. -/
abbrev Obj := List (String × LLMValue)

/-- Key lookup in an `Obj` with last-entry-wins (spread override) semantics. -/
def getKey : Obj → String → Option LLMValue
  | [], _ => none
  | (k', v) :: rest, k =>
    match getKey rest k with
    | some w => some w
    | none => if k = k' then some v else none

/-- First-defined choice on option values, modelling which source wins
after a spread merge. -/
def firstSome (a b : Option LLMValue) : Option LLMValue :=
  match a with
  | some v => some v
  | none => b

theorem getKey_append (xs ys : Obj) (k : String) :
    getKey (xs ++ ys) k = firstSome (getKey ys k) (getKey xs k) := by
  induction xs with
  | nil =>
    simp only [List.nil_append, getKey, firstSome]
    cases getKey ys k <;> rfl
  | cons p xs ih =>
    obtain ⟨k', v⟩ := p
    simp only [List.cons_append, getKey, List.append_eq, ih, firstSome]
    cases getKey ys k <;> cases getKey xs k <;> rfl

/-- Truthiness of a key in an options object (`options?.key && ...`). -/
def truthyKey (o : Obj) (k : String) : Bool :=
  match getKey o k with
  | some v => v.truthy
  | none => false

/-- Read a key expecting a string value (as typed accesses like
`options?.systemPrompt` do); `none` when absent or not a string. -/
def getStrKey (o : Obj) (k : String) : Option String :=
  match getKey o k with
  | some (.str s) => some s
  | _ => none

/-- The string value of a key with JavaScript `||` fallback:
`options?.model || defaultModel` falls back on absence and on falsy
(empty) strings alike. -/
def strOrDefault (o : Obj) (k : String) (dflt : String) : String :=
  match getKey o k with
  | some (.str s) => if s = "" then dflt else s
  | _ => dflt

/-- Facade state after successful construction: the validated
`defaultModel` and the configured `defaultOptions`
(llm-module.ts, fields of `LLMModule.config` used by `mergeOptions`). -/
structure LLMModuleState where
  defaultModel : String
  defaultOptions : Obj := []
deriving DecidableEq, Repr

/-- `LLMModule.mergeOptions` (llm-module.ts lines 266-277):
`\x7b model: this.config.defaultModel, ...defaultOptions, ...options,
...overrides \x7d`. -/
def LLMModule.mergeOptions (st : LLMModuleState) (options : Obj)
    (overrides : Obj) : Obj :=
  ("model", LLMValue.str st.defaultModel) :: st.defaultOptions ++ options ++ overrides

/-- The merged options `sendMessage` passes to the adapter
(llm-module.ts line 61: `this.mergeOptions(options)`, no overrides). -/
def LLMModule.sendMessageMergedOptions (st : LLMModuleState) (options : Obj) : Obj :=
  LLMModule.mergeOptions st options []

/-- The merged options `sendConversation` passes to the adapter
(llm-module.ts line 78). -/
def LLMModule.sendConversationMergedOptions (st : LLMModuleState) (options : Obj) : Obj :=
  LLMModule.mergeOptions st options []

/-- The merged options `streamConversation` passes to the adapter
(llm-module.ts line 96: `this.mergeOptions(options, \x7b stream: true \x7d)`). -/
def LLMModule.streamConversationMergedOptions (st : LLMModuleState) (options : Obj) : Obj :=
  LLMModule.mergeOptions st options [("stream", LLMValue.bool true)]

/-- The options `LLMModule.embed` hands to the adapter
(llm-module.ts line 133: `return this.provider.embed(texts, options)` —
the per-call options are passed directly, without any merging). -/
def LLMModule.embedOptionsToProvider (_st : LLMModuleState) (options : Obj) : Obj :=
  options

/-! ### Provider adapters: payload construction -/

/-- A message as placed in a backend-bound request payload
(role plus content, no timestamp). -/
structure ChatMessage where
  role : Role
  content : String
deriving DecidableEq, Repr

/-- `messages.map((msg) => (\x7b role: msg.role, content: msg.content \x7d))`
as it appears in every adapter. -/
def toChatMessages (messages : List Message) : List ChatMessage :=
  messages.map (fun m => ⟨m.role, m.content⟩)

/-- The known/standard option keys destructured away by
`separateOpenAIOptions` (openai-provider.ts lines 14-31) and by the
Anthropic `separateOptions` (anthropic-provider.ts lines 22-39). -/
def knownOptionKeys : List String :=
  ["model", "temperature", "maxTokens", "systemPrompt", "responseFormat", "stream"]

/-- The `rest` component of `separateOpenAIOptions` / `separateOptions`:
the incoming options with the six known keys destructured away. -/
def restOptions (options : Obj) : Obj :=
  options.filter (fun p => decide (p.1 ∉ knownOptionKeys))

/-- The system prompt text used when the injection guard has fired
(`options.systemPrompt` is then a non-empty string). -/
def systemPromptText (options : Obj) : String :=
  (getStrKey options "systemPrompt").getD ""

/-- The message list of the OpenAI chat payload
(openai-provider.ts lines 92-100): map to OpenAI format, then
`openaiMessages.unshift(\x7b role: system, content: systemPrompt \x7d)`
when `options?.systemPrompt` is truthy and no input message has the
system role. The unshift acts on the freshly mapped array, so the caller
input `messages` is left untouched. -/
def openaiPayloadMessages (messages : List Message) (options : Obj) : List ChatMessage :=
  let openaiMessages := toChatMessages messages
  if truthyKey options "systemPrompt"
      && !(messages.any (fun m => m.role == Role.system)) then
    ⟨Role.system, systemPromptText options⟩ :: openaiMessages
  else
    openaiMessages

/-- The message list of the UBC LLM Sandbox chat payload
(ubc-llm-sandbox-provider.ts lines 193-202), identical in structure to
the OpenAI adapter. -/
def ubcSandboxPayloadMessages (messages : List Message) (options : Obj) : List ChatMessage :=
  let openaiMessages := toChatMessages messages
  if truthyKey options "systemPrompt"
      && !(messages.any (fun m => m.role == Role.system)) then
    ⟨Role.system, systemPromptText options⟩ :: openaiMessages
  else
    openaiMessages

/-- The request object passed to `client.chat.completions.create` by the
OpenAI-compatible adapters: the standard fields plus the spread of the
`rest` options. -/
structure OpenAIChatRequest where
  model : String
  messages : List ChatMessage
  temperature : Option LLMValue := none
  max_tokens : Option LLMValue := none
  response_format : Option String := none
  stream : Bool
  rest : Obj := []
deriving DecidableEq, Repr

/-- `OpenAIProvider.sendConversation` request construction
(openai-provider.ts lines 84-115). -/
def openaiSendConversationRequest (defaultModel : String) (messages : List Message)
    (options : Obj) : OpenAIChatRequest :=
  { model := strOrDefault options "model" defaultModel
    messages := openaiPayloadMessages messages options
    temperature := getKey options "temperature"
    max_tokens := getKey options "maxTokens"
    response_format :=
      if getKey options "responseFormat" = some (LLMValue.str "json")
      then some "json_object" else none
    stream := false
    rest := restOptions options }

/-- `UbcLlmSandboxProvider.sendConversation` request construction
(ubc-llm-sandbox-provider.ts lines 185-217). -/
def ubcSandboxSendConversationRequest (defaultModel : String) (messages : List Message)
    (options : Obj) : OpenAIChatRequest :=
  { model := strOrDefault options "model" defaultModel
    messages := ubcSandboxPayloadMessages messages options
    temperature := getKey options "temperature"
    max_tokens := getKey options "maxTokens"
    response_format :=
      if getKey options "responseFormat" = some (LLMValue.str "json")
      then some "json_object" else none
    stream := false
    rest := restOptions options }

/-- The request object passed to `client.messages.create` by the Anthropic
adapter: messages, top-level `system` parameter, standard fields, plus the
spread of the `rest` options. -/
structure AnthropicRequest where
  model : String
  messages : List ChatMessage
  max_tokens : LLMValue
  temperature : Option LLMValue := none
  system : Option String := none
  stream : Bool
  rest : Obj := []
deriving DecidableEq, Repr

/-- The main message list built by the Anthropic adapter
(anthropic-provider.ts lines 137-143 and 196-201): system-role messages
are filtered out, the rest mapped to role/content pairs. -/
def anthropicMessagesOf (messages : List Message) : List ChatMessage :=
  (messages.filter (fun m => !(m.role == Role.system))).map
    (fun m => ⟨m.role, m.content⟩)

/-- `options?.maxTokens || 4096` (anthropic-provider.ts lines 154 and 211):
JavaScript `||` falls back on absent and on falsy (zero) values alike. -/
def anthropicMaxTokens (options : Obj) : LLMValue :=
  match getKey options "maxTokens" with
  | some v => if v.truthy then v else LLMValue.num 4096
  | none => LLMValue.num 4096

/-- `AnthropicProvider.sendConversation` request construction
(anthropic-provider.ts lines 120-161): system messages filtered from the
main list, `system` parameter taken from `options?.systemPrompt` only. -/
def anthropicSendConversationRequest (defaultModel : String) (messages : List Message)
    (options : Obj) : AnthropicRequest :=
  { model := strOrDefault options "model" defaultModel
    messages := anthropicMessagesOf messages
    max_tokens := anthropicMaxTokens options
    temperature := getKey options "temperature"
    system := getStrKey options "systemPrompt"
    stream := false
    rest := restOptions options }

/-- `AnthropicProvider.streamConversation` request construction
(anthropic-provider.ts lines 181-216): same as the non-streaming request
except `stream: true`. -/
def anthropicStreamConversationRequest (defaultModel : String) (messages : List Message)
    (options : Obj) : AnthropicRequest :=
  { model := strOrDefault options "model" defaultModel
    messages := anthropicMessagesOf messages
    max_tokens := anthropicMaxTokens options
    temperature := getKey options "temperature"
    system := getStrKey options "systemPrompt"
    stream := true
    rest := restOptions options }

/-- The request object passed to `client.chat` by the Ollama adapter:
no passthrough of unknown option keys, only a dedicated `options` object
holding `temperature` and `num_predict`. -/
structure OllamaChatRequest where
  model : String
  messages : List ChatMessage
  stream : Bool
  format : Option String := none
  options : Obj := []
deriving DecidableEq, Repr

/-- `OllamaProvider.sendConversation` request construction
(ollama provider, lines 409-442 of the concatenated provider source):
maps `temperature` and `maxTokens` (as `num_predict`) into a nested
`options` object, injects `options.systemPrompt` as a leading system
message when none is present, and forwards no other option keys. -/
def ollamaSendConversationRequest (defaultModel : String) (messages : List Message)
    (options : Obj) : OllamaChatRequest :=
  let ollamaMessages := toChatMessages messages
  let tempOpt : Obj :=
    match getKey options "temperature" with
    | some v => [("temperature", v)]
    | none => []
  let predictOpt : Obj :=
    match getKey options "maxTokens" with
    | some v => [("num_predict", v)]
    | none => []
  let msgs :=
    if truthyKey options "systemPrompt"
        && !(messages.any (fun m => m.role == Role.system)) then
      ⟨Role.system, systemPromptText options⟩ :: ollamaMessages
    else
      ollamaMessages
  { model := strOrDefault options "model" defaultModel
    messages := msgs
    stream := false
    format :=
      if getKey options "responseFormat" = some (LLMValue.str "json")
      then some "json" else none
    options := tempOpt ++ predictOpt }

/-! ### Streaming loops -/

/-- Concatenation of a list of text fragments, `F1 ++ F2 ++ ... ++ Fn`:
the running total built by `fullContent += chunk` accumulation. -/
def concatAll (fragments : List String) : String :=
  fragments.foldr (fun s acc => s ++ acc) ""

/-- The streaming loop of the OpenAI-compatible adapters
(openai-provider.ts lines 154-161, ubc-llm-sandbox-provider.ts lines
272-287): each chunk carries `chunk.choices[0]?.delta?.content`, defaulted
to the empty string; only truthy (non-empty) contents are appended to the
accumulator and handed to the callback. Returns the list of callback
invocations in order together with the accumulated `fullContent`. -/
def openaiProcessStream : List (Option String) → List String × String
  | [] => ([], "")
  | d :: ds =>
    let content := d.getD ""
    let (trace, acc) := openaiProcessStream ds
    if content = "" then (trace, acc) else (content :: trace, content ++ acc)

/-- One event of an Anthropic message stream, as inspected by the loop:
either a text delta (`content_block_delta` with `text_delta`) or any
other event kind, which the loop ignores. -/
inductive AnthropicStreamEvent where
  | textDelta (text : String)
  | other
deriving DecidableEq, Repr

/-- The streaming loop of the Anthropic adapter (anthropic-provider.ts
lines 221-235): every text-delta event has its text appended to
`fullContent` and passed to the callback, with no emptiness check; other
events are skipped. Returns the callback invocations in order together
with the accumulated `fullContent`. -/
def anthropicProcessStream : List AnthropicStreamEvent → List String × String
  | [] => ([], "")
  | AnthropicStreamEvent.textDelta t :: es =>
    let (trace, acc) := anthropicProcessStream es
    (t :: trace, t ++ acc)
  | AnthropicStreamEvent.other :: es => anthropicProcessStream es

/-! ### Error taxonomy, facade capability check -/

/-- The toolkit `APIError`: message and numeric status code. -/
structure APIErr where
  message : String
  status : Nat
deriving DecidableEq, Repr

/-- Normalized response of the chat verbs (types.ts `LLMResponse`,
restricted to the fields the claims are about). -/
structure LLMResponse where
  content : String
  model : String
deriving DecidableEq, Repr

/-- Normalized response of the embed verb (types.ts
`EmbeddingResponse`, restricted to the fields the claims are about). -/
structure EmbeddingResponse where
  embeddings : List (List ℚ)
  model : String
deriving DecidableEq, Repr

/-- A provider adapter as the facade sees it for the embed capability:
`embed` is optional (provider-interface, `embed?`); when present it is a
function from texts and options to a result or an `APIErr`. -/
structure ProviderImpl where
  name : String
  embed : Option (List String → Obj → Except APIErr EmbeddingResponse)

/-- `LLMModule.embed` (llm-module.ts lines 114-134): when the adapter has
no `embed` member, throw `APIError(..., 501)`; otherwise delegate,
passing the options directly. -/
def LLMModule.embed (p : ProviderImpl) (texts : List String) (options : Obj) :
    Except APIErr EmbeddingResponse :=
  match p.embed with
  | none =>
    Except.error
      ⟨"The configured provider does not support the embed operation.", 501⟩
  | some f => f texts options

/-- `AnthropicProvider.embed` (anthropic-provider.ts lines 265-272):
always throws `APIError(..., 501)`. -/
def anthropicEmbed (_texts : List String) (_options : Obj) :
    Except APIErr EmbeddingResponse :=
  Except.error ⟨"Embeddings are not supported by the Anthropic provider.", 501⟩

/-- The Anthropic adapter as seen by the facade capability check: its
`embed` member exists but always fails with status 501. -/
def anthropicProviderImpl : ProviderImpl :=
  ⟨"anthropic", some anthropicEmbed⟩

/-! ### Conversation holder -/

/-- The mutable state of `ConversationImpl` (conversation.ts): the
ordered message log. -/
structure ConversationState where
  messages : List Message := []
deriving DecidableEq, Repr

/-- `ConversationImpl.addMessage` (conversation.ts lines 33-39): append a
message with the current timestamp (passed here as an explicit value). -/
def ConversationState.addMessage (c : ConversationState) (role : Role)
    (content : String) (now : Option String) : ConversationState :=
  { messages := c.messages ++ [⟨role, content, now⟩] }

/-- `ConversationImpl.getHistory` as a pure value (conversation.ts lines
46-49): the current history contents. Aliasing behaviour of the returned
array is modelled separately with an explicit store below. -/
def ConversationState.getHistory (c : ConversationState) : List Message :=
  c.messages

/-- `ConversationImpl.send` (conversation.ts lines 57-71): delegate the
current history to the factory; on success append the returned content as
an assistant message; a thrown error (modelled as `Except.error`)
propagates before `addMessage` is reached, leaving the state unchanged. -/
def ConversationState.send (c : ConversationState)
    (factory : List Message → Obj → Except APIErr LLMResponse)
    (options : Obj) (now : Option String) :
    Except APIErr LLMResponse × ConversationState :=
  match factory c.messages options with
  | Except.error e => (Except.error e, c)
  | Except.ok r => (Except.ok r, c.addMessage Role.assistant r.content now)

/-- `ConversationImpl.stream` (conversation.ts lines 81-112): the factory
delivers some chunks to the wrapped callback (first component) and then
either fails or resolves (second component). `fullContent` accumulates
exactly the delivered chunks; on success the accumulated text is appended
as the assistant message; on failure `addMessage` is never reached. -/
def ConversationState.stream (c : ConversationState)
    (factory : List Message → Obj → List String × Except APIErr LLMResponse)
    (options : Obj) (now : Option String) :
    Except APIErr LLMResponse × ConversationState :=
  let (chunks, result) := factory c.messages options
  match result with
  | Except.error e => (Except.error e, c)
  | Except.ok r =>
    (Except.ok r, c.addMessage Role.assistant (concatAll chunks) now)

/-! ### Facade construction and provider selection -/

/-- The configuration consumed at facade construction (types.ts
`LLMConfig`): provider kind string, optional credential/endpoint/models,
and whether a logger was supplied. -/
structure LLMConfig where
  provider : String
  apiKey : Option String := none
  endpoint : Option String := none
  defaultModel : Option String := none
  embeddingModel : Option String := none
  defaultOptions : Obj := []
  hasLogger : Bool := true
deriving DecidableEq, Repr

/-- The toolkit `ConfigurationError`. -/
structure ConfigurationErr where
  message : String
deriving DecidableEq, Repr

/-- JavaScript truthiness of an optional string field: `undefined` and
the empty string are both falsy, so `if (!apiKey)` fires on either. -/
def strTruthy : Option String → Bool
  | none => false
  | some s => !(s == "")

/-- The adapter instance constructed by the selector, one constructor per
supported provider kind, carrying the constructor arguments the facade
passes (llm-module.ts lines 187-190, 203, 216-218, 236-242). -/
inductive ProviderInstance where
  | openai (apiKey defaultModel : String) (endpoint embeddingModel : Option String)
  | anthropic (apiKey defaultModel : String)
  | ollama (endpoint defaultModel : String) (embeddingModel : Option String)
  | ubcLlmSandbox (apiKey endpoint defaultModel : String) (embeddingModel : Option String)
deriving DecidableEq, Repr

/-- `LLMModule.initializeProvider` (llm-module.ts lines 160-261):
validate the required fields of the selected provider kind and construct
the single adapter instance; any missing (falsy) required field, and any
unrecognized provider kind string, yields a `ConfigurationError`.
The computation is pure: no network access is modelled because the source
performs none before or during construction. -/
def LLMModule.initializeProvider (cfg : LLMConfig) :
    Except ConfigurationErr ProviderInstance :=
  if !cfg.hasLogger then
    Except.error ⟨"Logger is required but was not provided in config"⟩
  else if cfg.provider = "openai" then
    if !(strTruthy cfg.apiKey) then
      Except.error ⟨"API key is required for OpenAI provider"⟩
    else if !(strTruthy cfg.defaultModel) then
      Except.error ⟨"defaultModel is required for OpenAI provider"⟩
    else
      Except.ok (ProviderInstance.openai (cfg.apiKey.getD "")
        (cfg.defaultModel.getD "") cfg.endpoint cfg.embeddingModel)
  else if cfg.provider = "anthropic" then
    if !(strTruthy cfg.apiKey) then
      Except.error ⟨"API key is required for Anthropic provider"⟩
    else if !(strTruthy cfg.defaultModel) then
      Except.error ⟨"defaultModel is required for Anthropic provider"⟩
    else
      Except.ok (ProviderInstance.anthropic (cfg.apiKey.getD "")
        (cfg.defaultModel.getD ""))
  else if cfg.provider = "ollama" then
    if !(strTruthy cfg.endpoint) then
      Except.error ⟨"endpoint is required for Ollama provider"⟩
    else if !(strTruthy cfg.defaultModel) then
      Except.error ⟨"defaultModel is required for Ollama provider"⟩
    else
      Except.ok (ProviderInstance.ollama (cfg.endpoint.getD "")
        (cfg.defaultModel.getD "") cfg.embeddingModel)
  else if cfg.provider = "ubc-llm-sandbox" then
    if !(strTruthy cfg.apiKey) then
      Except.error ⟨"apiKey is required for UBC LLM Sandbox provider"⟩
    else if !(strTruthy cfg.endpoint) then
      Except.error ⟨"endpoint is required for UBC LLM Sandbox provider"⟩
    else if !(strTruthy cfg.defaultModel) then
      Except.error ⟨"defaultModel is required for UBC LLM Sandbox provider"⟩
    else
      Except.ok (ProviderInstance.ubcLlmSandbox (cfg.apiKey.getD "")
        (cfg.endpoint.getD "") (cfg.defaultModel.getD "") cfg.embeddingModel)
  else
    Except.error ⟨"Unsupported built-in provider: " ++ cfg.provider⟩

/-- `LLMModule` constructor outcome (llm-module.ts lines 43-47): on
success the facade holds exactly the one adapter instance returned by
`initializeProvider`; on failure construction throws. -/
def LLMModule.construct (cfg : LLMConfig) : Except ConfigurationErr ProviderInstance :=
  LLMModule.initializeProvider cfg

/-! ### A store model for `getHistory` aliasing -/

/-- A store of message arrays, indexing live array objects by position;
used to model JavaScript reference semantics for the array returned by
`getHistory`. -/
abbrev MsgStore := List (List Message)

/-- Allocate a fresh array object holding `v`; returns the new store and
the reference to the fresh cell. -/
def allocArray (h : MsgStore) (v : List Message) : MsgStore × Nat :=
  (h ++ [v], h.length)

/-- Read an array object. -/
def readArray (h : MsgStore) (r : Nat) : List Message :=
  h.getD r []

/-- Mutate an array object in place (covers appending, removing and
reordering its elements: the cell is replaced by arbitrary new
contents). -/
def writeArray (h : MsgStore) (r : Nat) (v : List Message) : MsgStore :=
  h.set r v

/-- A conversation object whose internal message log lives in the store
at `histRef`. -/
structure ConversationRef where
  histRef : Nat
deriving DecidableEq, Repr

/-- `ConversationImpl.getHistory` with reference semantics
(conversation.ts lines 46-49): `return [...this.messages]` allocates a
fresh array holding a shallow copy of the internal log and returns a
reference to the fresh array, not to the internal one. -/
def getHistoryRef (h : MsgStore) (c : ConversationRef) : MsgStore × Nat :=
  allocArray h (readArray h c.histRef)

/-! ### Helper lemmas -/

theorem firstSome_none (a : Option LLMValue) : firstSome a none = a := by
  cases a <;> rfl

theorem getKey_cons (k' : String) (v : LLMValue) (o : Obj) (k : String) :
    getKey ((k', v) :: o) k =
      firstSome (getKey o k) (if k = k' then some v else none) := by
  cases h : getKey o k <;> simp [getKey, firstSome, h]

/-- Lookup after merging away the known option keys: known keys are gone,
all other keys look up exactly as in the original options.  -/
theorem getKey_restOptions (o : Obj) (k : String) :
    getKey (restOptions o) k =
      if k ∈ knownOptionKeys then none else getKey o k := by
  induction o with
  | nil =>
    simp [restOptions, getKey]
  | cons p o ih =>
    obtain ⟨k', v⟩ := p
    by_cases hk' : k' ∈ knownOptionKeys
    · have hstep : restOptions ((k', v) :: o) = restOptions o := by
        simp [restOptions, List.filter_cons, hk']
      rw [hstep, ih]
      by_cases hk : k ∈ knownOptionKeys
      · simp [hk]
      · have hne : k ≠ k' := by rintro rfl; exact hk hk'
        simp [hk, getKey_cons, hne, firstSome_none]
    · have hstep : restOptions ((k', v) :: o) = (k', v) :: restOptions o := by
        simp [restOptions, List.filter_cons, hk']
      rw [hstep, getKey_cons, ih, getKey_cons]
      by_cases hk : k ∈ knownOptionKeys
      · have hne : k ≠ k' := by rintro rfl; exact hk' hk
        simp [hk, hne, firstSome]
      · simp [hk]

/-! ### Claim theorems -/

/-- C1: for every default options D (the configured `defaultOptions`),
per-call options C, and verb-forced overrides O, the effective options the
facade passes to the adapter are D overridden by C overridden by O,
key-by-key with later sources winning entirely, and the configured
`defaultModel` sits beneath all three as the lowest-precedence `model`
value; `streamConversation` is exactly the instance whose forced override
is `stream = true`. -/
theorem mergeOptions_override_order (st : LLMModuleState) (C O : Obj) (k : String) :
    getKey (LLMModule.mergeOptions st C O) k =
      firstSome (getKey O k)
        (firstSome (getKey C k)
          (firstSome (getKey st.defaultOptions k)
            (if k = "model" then some (LLMValue.str st.defaultModel) else none)))
    ∧ LLMModule.streamConversationMergedOptions st C =
        LLMModule.mergeOptions st C [("stream", LLMValue.bool true)] := by
  constructor
  · show getKey ((("model", LLMValue.str st.defaultModel) :: st.defaultOptions)
        ++ C ++ O) k = _
    rw [getKey_append, getKey_append, getKey_cons]
  · rfl

/-- C9 (amended): the configured `defaultOptions` are merged beneath the
per-call options for `sendMessage`, `sendConversation` and
`streamConversation`; `embed` passes its per-call options to the adapter
directly, with no merging of `defaultOptions` beneath them. -/
theorem defaultOptions_beneath_verbs (st : LLMModuleState) (C : Obj) (k : String) :
    getKey (LLMModule.sendMessageMergedOptions st C) k =
      firstSome (getKey C k)
        (firstSome (getKey st.defaultOptions k)
          (if k = "model" then some (LLMValue.str st.defaultModel) else none))
    ∧ getKey (LLMModule.sendConversationMergedOptions st C) k =
      firstSome (getKey C k)
        (firstSome (getKey st.defaultOptions k)
          (if k = "model" then some (LLMValue.str st.defaultModel) else none))
    ∧ getKey (LLMModule.streamConversationMergedOptions st C) k =
      (if k = "stream" then some (LLMValue.bool true) else
        firstSome (getKey C k)
          (firstSome (getKey st.defaultOptions k)
            (if k = "model" then some (LLMValue.str st.defaultModel) else none)))
    ∧ LLMModule.embedOptionsToProvider st C = C := by
  have base : ∀ O : Obj, getKey (LLMModule.mergeOptions st C O) k =
      firstSome (getKey O k)
        (firstSome (getKey C k)
          (firstSome (getKey st.defaultOptions k)
            (if k = "model" then some (LLMValue.str st.defaultModel) else none))) := by
    intro O
    show getKey ((("model", LLMValue.str st.defaultModel) :: st.defaultOptions)
        ++ C ++ O) k = _
    rw [getKey_append, getKey_append, getKey_cons]
  refine ⟨?_, ?_, ?_, rfl⟩
  · rw [LLMModule.sendMessageMergedOptions, base]
    rfl
  · rw [LLMModule.sendConversationMergedOptions, base]
    rfl
  · rw [LLMModule.streamConversationMergedOptions, base]
    by_cases hk : k = "stream" <;> simp [hk, getKey, firstSome]

/-- C9 counterexample: at a facade whose `defaultOptions` set
`temperature`, the options `embed` hands the adapter for an empty per-call
options bag contain no `temperature` at all, so `defaultOptions` is not
merged beneath the `embed` call options. -/
theorem embed_skips_defaultOptions :
    getKey (LLMModule.embedOptionsToProvider
        ⟨"m", [("temperature", LLMValue.num 1)]⟩ []) "temperature" = none
    ∧ getKey (LLMModuleState.defaultOptions
        ⟨"m", [("temperature", LLMValue.num 1)]⟩) "temperature"
        = some (LLMValue.num 1) := by
  constructor
  · rfl
  · rfl

/-- C2 counterexample: with history `[system "S", user "hi"]` and no
per-call options, the Anthropic request excludes the system message from
the main list but does not supply it through the top-level `system`
parameter either — `system` is `none` and the content "S" is dropped. -/
theorem anthropic_drops_inline_system :
    (anthropicSendConversationRequest "claude"
        [⟨Role.system, "S", none⟩, ⟨Role.user, "hi", none⟩] []).system = none
    ∧ (anthropicSendConversationRequest "claude"
        [⟨Role.system, "S", none⟩, ⟨Role.user, "hi", none⟩] []).messages
        = [⟨Role.user, "hi"⟩]
    ∧ ([⟨Role.system, "S", none⟩, ⟨Role.user, "hi", none⟩] : List Message).any
        (fun m => m.role == Role.system) = true := by
  refine ⟨rfl, rfl, rfl⟩

/-- C2 (amended): in both `sendConversation` and `streamConversation` of
the Anthropic adapter, every system-role message is excluded from the main
message list — but it is dropped rather than moved into the dedicated
top-level `system` parameter, which carries only the per-call
`options.systemPrompt`; consequently no system message is ever sent both
as the top-level parameter and as an in-line message. -/
theorem anthropic_system_handling (dm : String) (messages : List Message) (options : Obj) :
    (anthropicSendConversationRequest dm messages options).messages
        = (messages.filter (fun m => !(m.role == Role.system))).map
            (fun m => ⟨m.role, m.content⟩)
    ∧ (anthropicStreamConversationRequest dm messages options).messages
        = (messages.filter (fun m => !(m.role == Role.system))).map
            (fun m => ⟨m.role, m.content⟩)
    ∧ (anthropicSendConversationRequest dm messages options).system
        = getStrKey options "systemPrompt"
    ∧ (anthropicStreamConversationRequest dm messages options).system
        = getStrKey options "systemPrompt"
    ∧ ∀ m ∈ (anthropicSendConversationRequest dm messages options).messages,
        ¬ m.role = Role.system := by
  refine ⟨rfl, rfl, rfl, rfl, ?_⟩
  intro m hm
  simp only [anthropicSendConversationRequest, anthropicMessagesOf,
    List.mem_map, List.mem_filter] at hm
  obtain ⟨a, ⟨_, hrole⟩, rfl⟩ := hm
  simpa using hrole

/-- C2 amended-claim witness at a concrete conversation. -/
theorem anthropic_system_handling_witness :
    (⟨Role.user, "hi"⟩ : ChatMessage).role ≠ Role.system :=
  (anthropic_system_handling "claude" [⟨Role.user, "hi", none⟩] []).2.2.2.2
    ⟨Role.user, "hi"⟩ (by decide)

/-- C3 counterexample: when the backend delivers the fragment sequence
["hi", ""], the OpenAI-compatible streaming loop invokes the callback
only with "hi" — not with exactly each delivered fragment. -/
theorem openai_stream_skips_empty_fragment :
    (openaiProcessStream [some "hi", some ""]).1 ≠ ["hi", ""] := by
  decide

/-- C3 (amended): for every fragment sequence F1..Fn delivered during one
streaming call, the callback is invoked in delivery order with exactly the
non-empty fragments in the OpenAI-compatible loop (which skips falsy
chunk contents) and with exactly every text-delta fragment in the
Anthropic loop; in both, the accumulated `content` of the returned
response equals the concatenation F1+...+Fn. -/
theorem stream_fragment_order_and_reassembly (F : List String) :
    openaiProcessStream (F.map some)
        = (F.filter (fun s => !(s == "")), concatAll F)
    ∧ anthropicProcessStream (F.map AnthropicStreamEvent.textDelta)
        = (F, concatAll F) := by
  constructor
  · induction F with
    | nil => rfl
    | cons s F ih =>
      by_cases hs : s = ""
      · subst hs
        simp only [List.map_cons, openaiProcessStream, ih, List.filter_cons]
        simp [concatAll]
      · simp only [List.map_cons, openaiProcessStream, ih, List.filter_cons]
        simp [hs, concatAll]
  · induction F with
    | nil => rfl
    | cons s F ih =>
      simp only [List.map_cons, anthropicProcessStream, ih]
      rfl

/-- C4: a `send` or `stream` whose delegated facade call throws leaves the
history unchanged; the assistant reply is appended only after the
delegated call resolves, and a failed stream never appends a partial
assistant message even when some chunks were already delivered. -/
theorem history_append_atomicity (c : ConversationState)
    (f : List Message → Obj → Except APIErr LLMResponse)
    (g : List Message → Obj → List String × Except APIErr LLMResponse)
    (options : Obj) (now : Option String) :
    (∀ e, f c.messages options = Except.error e →
        (c.send f options now).2 = c)
    ∧ (∀ r, f c.messages options = Except.ok r →
        ((c.send f options now).2).messages
          = c.messages ++ [⟨Role.assistant, r.content, now⟩])
    ∧ (∀ chunks e, g c.messages options = (chunks, Except.error e) →
        (c.stream g options now).2 = c)
    ∧ (∀ chunks r, g c.messages options = (chunks, Except.ok r) →
        ((c.stream g options now).2).messages
          = c.messages ++ [⟨Role.assistant, concatAll chunks, now⟩]) := by
  refine ⟨?_, ?_, ?_, ?_⟩
  · intro e he
    simp [ConversationState.send, he]
  · intro r hr
    simp [ConversationState.send, hr, ConversationState.addMessage]
  · intro chunks e hg
    simp [ConversationState.stream, hg]
  · intro chunks r hg
    simp [ConversationState.stream, hg, ConversationState.addMessage]

/-- C4 witness: a throwing fake adapter leaves a concrete one-message
history unchanged, for `send` and for a stream that already delivered a
partial chunk. -/
theorem history_append_atomicity_witness :
    (ConversationState.send ⟨[⟨Role.user, "hi", none⟩]⟩
        (fun _ _ => Except.error ⟨"boom", 500⟩) [] none).2
      = (⟨[⟨Role.user, "hi", none⟩]⟩ : ConversationState)
    ∧ (ConversationState.stream ⟨[⟨Role.user, "hi", none⟩]⟩
        (fun _ _ => (["par"], Except.error ⟨"boom", 500⟩)) [] none).2
      = (⟨[⟨Role.user, "hi", none⟩]⟩ : ConversationState) :=
  ⟨(history_append_atomicity ⟨[⟨Role.user, "hi", none⟩]⟩
      (fun _ _ => Except.error ⟨"boom", 500⟩)
      (fun _ _ => (["par"], Except.error ⟨"boom", 500⟩)) [] none).1
      ⟨"boom", 500⟩ rfl,
   (history_append_atomicity ⟨[⟨Role.user, "hi", none⟩]⟩
      (fun _ _ => Except.error ⟨"boom", 500⟩)
      (fun _ _ => (["par"], Except.error ⟨"boom", 500⟩)) [] none).2.2.1
      ["par"] ⟨"boom", 500⟩ rfl⟩

/-- Number of system-role messages in a backend-bound message list. -/
def countSystem (l : List ChatMessage) : Nat :=
  (l.filter (fun m => m.role == Role.system)).length

theorem countSystem_toChatMessages_of_not_any (messages : List Message)
    (h : messages.any (fun m => m.role == Role.system) = false) :
    countSystem (toChatMessages messages) = 0 := by
  induction messages with
  | nil => rfl
  | cons m ms ih =>
    simp only [List.any_cons, Bool.or_eq_false_iff] at h
    obtain ⟨hm, hms⟩ := h
    simp only [toChatMessages, List.map_cons, countSystem, List.filter_cons] at *
    simp [hm, ih hms]

/-- C5: with a truthy (non-empty) `options.systemPrompt`, the
OpenAI-compatible adapters prepend the prompt as a synthetic leading
system message exactly when the input sequence carries no system-role
message; the resulting payload never gains a second system prompt (its
system-message count is the max of one and the input count); the payload
is built from a fresh mapping of the input, so the caller array is not
mutated; and on a successful round-trip the stored history grows only by
the assistant reply, never by the injected prompt. -/
theorem system_prompt_injection (messages : List Message) (options : Obj)
    (hsp : truthyKey options "systemPrompt" = true) :
    (messages.any (fun m => m.role == Role.system) = false →
        openaiPayloadMessages messages options
          = ⟨Role.system, systemPromptText options⟩ :: toChatMessages messages
        ∧ ubcSandboxPayloadMessages messages options
          = ⟨Role.system, systemPromptText options⟩ :: toChatMessages messages)
    ∧ (messages.any (fun m => m.role == Role.system) = true →
        openaiPayloadMessages messages options = toChatMessages messages
        ∧ ubcSandboxPayloadMessages messages options = toChatMessages messages)
    ∧ countSystem (openaiPayloadMessages messages options)
        = max 1 (countSystem (toChatMessages messages))
    ∧ countSystem (ubcSandboxPayloadMessages messages options)
        = max 1 (countSystem (toChatMessages messages))
    ∧ (∀ (c : ConversationState)
          (f : List Message → Obj → Except APIErr LLMResponse) r now,
        f c.messages options = Except.ok r →
        ((c.send f options now).2).messages
          = c.messages ++ [⟨Role.assistant, r.content, now⟩]) := by
  have hcount : countSystem (openaiPayloadMessages messages options)
      = max 1 (countSystem (toChatMessages messages)) := by
    by_cases hany : messages.any (fun m => m.role == Role.system) = true
    · have hpayload : openaiPayloadMessages messages options
          = toChatMessages messages := by
        simp [openaiPayloadMessages, hsp, hany]
      rw [hpayload]
      have h1 : 1 ≤ countSystem (toChatMessages messages) := by
        rw [List.any_eq_true] at hany
        obtain ⟨m, hmem, hrole⟩ := hany
        have hmemf : (⟨m.role, m.content⟩ : ChatMessage)
            ∈ (toChatMessages messages).filter (fun m => m.role == Role.system) := by
          rw [List.mem_filter]
          exact ⟨List.mem_map_of_mem _ hmem, hrole⟩
        calc 1 ≤ ((toChatMessages messages).filter
                (fun m => m.role == Role.system)).length :=
              List.length_pos.mpr (List.ne_nil_of_mem hmemf)
          _ = countSystem (toChatMessages messages) := rfl
      omega
    · rw [Bool.not_eq_true] at hany
      have hpayload : openaiPayloadMessages messages options
          = ⟨Role.system, systemPromptText options⟩ :: toChatMessages messages := by
        simp [openaiPayloadMessages, hsp, hany]
      rw [hpayload]
      have hstep : countSystem
            (⟨Role.system, systemPromptText options⟩ :: toChatMessages messages)
          = countSystem (toChatMessages messages) + 1 := by
        simp [countSystem, List.filter_cons]
      rw [hstep, countSystem_toChatMessages_of_not_any messages hany]
      omega
  refine ⟨?_, ?_, hcount, hcount, ?_⟩
  · intro hany
    constructor <;> simp [openaiPayloadMessages, ubcSandboxPayloadMessages, hsp, hany]
  · intro hany
    constructor <;> simp [openaiPayloadMessages, ubcSandboxPayloadMessages, hsp, hany]
  · intro c f r now hf
    simp [ConversationState.send, hf, ConversationState.addMessage]

/-- C5 witness: at a one-user-message conversation with
`systemPrompt = "be nice"`, the injected payload and the post-send history
are as the theorem states. -/
theorem system_prompt_injection_witness :
    openaiPayloadMessages [⟨Role.user, "q", none⟩]
        [("systemPrompt", LLMValue.str "be nice")]
      = [⟨Role.system, "be nice"⟩, ⟨Role.user, "q"⟩]
    ∧ (ConversationState.stream ⟨[⟨Role.user, "q", none⟩]⟩
        (fun _ _ => (["ok"], Except.ok ⟨"ok", "m"⟩))
        [("systemPrompt", LLMValue.str "be nice")] none).2
      = (⟨[⟨Role.user, "q", none⟩, ⟨Role.assistant, "ok", none⟩]⟩ : ConversationState) :=
  ⟨((system_prompt_injection [⟨Role.user, "q", none⟩]
      [("systemPrompt", LLMValue.str "be nice")] (by decide)).1 (by decide)).1,
   by decide⟩

/-- C6: `embed` on a facade whose active adapter lacks genuine embedding
support fails with an `APIError` carrying status 501: the facade checks
the capability on the adapter first and raises the 501 error itself when
`embed` is absent, and the Anthropic adapter (whose `embed` member exists
but is not genuine support) raises a 501 `APIError` of its own. -/
theorem embed_capability_check :
    (∀ (p : ProviderImpl), p.embed = none → ∀ texts options,
        LLMModule.embed p texts options = Except.error
          ⟨"The configured provider does not support the embed operation.", 501⟩)
    ∧ (∀ texts options, ∃ e, LLMModule.embed anthropicProviderImpl texts options
          = Except.error e ∧ e.status = 501) := by
  constructor
  · intro p hp texts options
    simp [LLMModule.embed, hp]
  · intro texts options
    exact ⟨⟨"Embeddings are not supported by the Anthropic provider.", 501⟩, rfl, rfl⟩

/-- C6 witness: a chat-only adapter with no `embed` member makes the
facade raise the 501 error at a concrete call. -/
theorem embed_capability_check_witness :
    LLMModule.embed ⟨"chat-only", none⟩ ["t"] [] = Except.error
      ⟨"The configured provider does not support the embed operation.", 501⟩ :=
  embed_capability_check.1 ⟨"chat-only", none⟩ rfl ["t"] []

/-- C7 counterexample: the Ollama adapter drops an unknown option key
entirely — with `num_ctx = 42` supplied, the request it builds is exactly
this literal, which carries no `num_ctx` anywhere. -/
theorem ollama_drops_passthrough :
    ollamaSendConversationRequest "m" [⟨Role.user, "hi", none⟩]
        [("num_ctx", LLMValue.num 42)]
      = { model := "m", messages := [⟨Role.user, "hi"⟩], stream := false,
          format := none, options := [] }
    ∧ getKey (ollamaSendConversationRequest "m" [⟨Role.user, "hi", none⟩]
        [("num_ctx", LLMValue.num 42)]).options "num_ctx" = none := by
  refine ⟨by decide, rfl⟩

/-- C7 (amended): in the OpenAI, Anthropic and UBC LLM Sandbox adapters,
every option key outside the known set is forwarded verbatim (same key,
same value) into the `rest` part of the `sendConversation` request
payload, and the known keys are removed from the passthrough set, so no
parameter reaches the payload both by its standard name and again via
passthrough; the Ollama adapter forwards no unknown option keys at all,
mapping only `temperature` and `maxTokens` into its nested options
object. -/
theorem passthrough_forwarding (dm : String) (messages : List Message)
    (options : Obj) (k : String) :
    (k ∉ knownOptionKeys →
        getKey (openaiSendConversationRequest dm messages options).rest k
          = getKey options k
        ∧ getKey (anthropicSendConversationRequest dm messages options).rest k
          = getKey options k
        ∧ getKey (ubcSandboxSendConversationRequest dm messages options).rest k
          = getKey options k)
    ∧ (k ∈ knownOptionKeys → getKey (restOptions options) k = none)
    ∧ (ollamaSendConversationRequest dm messages options).options
        = (match getKey options "temperature" with
           | some v => [("temperature", v)]
           | none => []) ++
          (match getKey options "maxTokens" with
           | some v => [("num_predict", v)]
           | none => []) := by
  refine ⟨?_, ?_, rfl⟩
  · intro hk
    have h : getKey (restOptions options) k = getKey options k := by
      rw [getKey_restOptions, if_neg hk]
    exact ⟨h, h, h⟩
  · intro hk
    rw [getKey_restOptions, if_pos hk]

/-- C7 witness: a provider-specific numeric key survives into the rest
payload of a concrete OpenAI request, and a known key does not reach the
passthrough set. -/
theorem passthrough_forwarding_witness :
    getKey (openaiSendConversationRequest "m" []
        [("logit_bias", LLMValue.num 2), ("temperature", LLMValue.num 1)]).rest
        "logit_bias" = some (LLMValue.num 2)
    ∧ getKey (restOptions
        [("logit_bias", LLMValue.num 2), ("temperature", LLMValue.num 1)])
        "temperature" = none :=
  ⟨by
    rw [(passthrough_forwarding "m" []
        [("logit_bias", LLMValue.num 2), ("temperature", LLMValue.num 1)]
        "logit_bias").1 (by decide) |>.1]
    rfl,
   (passthrough_forwarding "m" []
      [("logit_bias", LLMValue.num 2), ("temperature", LLMValue.num 1)]
      "temperature").2.1 (by decide)⟩

/-- The provider kind string an adapter instance answers for. -/
def ProviderInstance.kind : ProviderInstance → String
  | .openai _ _ _ _ => "openai"
  | .anthropic _ _ => "anthropic"
  | .ollama _ _ _ => "ollama"
  | .ubcLlmSandbox _ _ _ _ => "ubc-llm-sandbox"

/-- C8: constructing the facade with a provider kind missing a required
field (`apiKey` for openai, anthropic and ubc-llm-sandbox; `endpoint` for
ollama and ubc-llm-sandbox; `defaultModel` for every kind), or with an
unrecognized kind string, yields a `ConfigurationError` synchronously
from the pure construction path (no network is involved); on success the
constructor holds exactly one adapter instance, of the configured kind. -/
theorem config_validation (cfg : LLMConfig) (hl : cfg.hasLogger = true) :
    ((cfg.provider = "openai" ∨ cfg.provider = "anthropic"
        ∨ cfg.provider = "ubc-llm-sandbox") → cfg.apiKey = none →
      ∃ e, LLMModule.construct cfg = Except.error e)
    ∧ ((cfg.provider = "ollama" ∨ cfg.provider = "ubc-llm-sandbox") →
        cfg.endpoint = none →
      ∃ e, LLMModule.construct cfg = Except.error e)
    ∧ (cfg.defaultModel = none →
      ∃ e, LLMModule.construct cfg = Except.error e)
    ∧ (cfg.provider ≠ "openai" → cfg.provider ≠ "anthropic" →
        cfg.provider ≠ "ollama" → cfg.provider ≠ "ubc-llm-sandbox" →
      ∃ e, LLMModule.construct cfg = Except.error e)
    ∧ (∀ p, LLMModule.construct cfg = Except.ok p → p.kind = cfg.provider) := by
  unfold LLMModule.construct LLMModule.initializeProvider
  rw [hl]
  refine ⟨?_, ?_, ?_, ?_, ?_⟩
  · rintro (hp | hp | hp) hk <;>
      simp [hp, strTruthy, hk] <;>
      split_ifs <;> exact ⟨_, rfl⟩
  · rintro (hp | hp) he <;>
      simp [hp, strTruthy, he] <;>
      split_ifs <;> exact ⟨_, rfl⟩
  · intro hd
    simp only [Bool.not_true, Bool.false_eq_true, if_false]
    split_ifs <;> first
      | exact ⟨_, rfl⟩
      | simp_all [strTruthy]
  · intro h1 h2 h3 h4
    simp [h1, h2, h3, h4]
  · intro p hp
    simp only [Bool.not_true, Bool.false_eq_true, if_false] at hp
    split_ifs at hp with hpo hk1 hk2 hpa hk3 hk4 hpol hk5 hk6 hps hk7 hk8 hk9 <;>
      first
        | exact Except.noConfusion hp
        | (injection hp with hp; subst hp; simp_all [ProviderInstance.kind])

/-- C8 witness: an ollama configuration with no endpoint fails
construction, and a complete openai configuration constructs the one
openai adapter instance. -/
theorem config_validation_witness :
    (∃ e, LLMModule.construct
        { provider := "ollama", defaultModel := some "llama3" } = Except.error e)
    ∧ ProviderInstance.kind
        (ProviderInstance.openai "sk" "gpt-4" none none) = "openai" :=
  ⟨(config_validation
      { provider := "ollama", defaultModel := some "llama3" } rfl).2.1
      (Or.inl rfl) rfl,
   (config_validation
      { provider := "openai", apiKey := some "sk",
        defaultModel := some "gpt-4" } rfl).2.2.2.2
      (ProviderInstance.openai "sk" "gpt-4" none none) rfl⟩

/-- C10: `getHistory` returns a fresh array: the returned reference never
aliases the internal log, its contents equal the internal log at call
time, and any mutation through the returned reference (replacing its
contents arbitrarily, which covers appending, removing and reordering)
leaves the internal log unchanged, so a later read of the conversation
sees only what was added through the conversation itself. -/
theorem getHistory_returns_fresh_copy (h : MsgStore) (c : ConversationRef)
    (hlt : c.histRef < h.length) :
    (getHistoryRef h c).2 ≠ c.histRef
    ∧ readArray (getHistoryRef h c).1 (getHistoryRef h c).2
        = readArray h c.histRef
    ∧ ∀ v, readArray
        (writeArray (getHistoryRef h c).1 (getHistoryRef h c).2 v) c.histRef
        = readArray h c.histRef := by
  have hsnd : (getHistoryRef h c).2 = h.length := rfl
  have hfst : (getHistoryRef h c).1 = h ++ [readArray h c.histRef] := rfl
  refine ⟨?_, ?_, ?_⟩
  · rw [hsnd]
    exact fun heq => absurd (heq ▸ hlt) (lt_irrefl _)
  · rw [hsnd, hfst, readArray, List.getD_eq_getElem?_getD,
      List.getElem?_concat_length]
    rfl
  · intro v
    rw [hsnd, hfst, readArray, writeArray, List.getD_eq_getElem?_getD,
      List.getElem?_set_ne (by omega)]
    rw [List.getElem?_append_left hlt]
    rw [readArray, List.getD_eq_getElem?_getD]

/-- C10 witness at a concrete store: the copy is fresh and mutating it
does not change the internal log. -/
theorem getHistory_returns_fresh_copy_witness :
    (getHistoryRef [[⟨Role.user, "hi", none⟩]] ⟨0⟩).2 ≠ 0
    ∧ readArray
        (writeArray (getHistoryRef [[⟨Role.user, "hi", none⟩]] ⟨0⟩).1
          (getHistoryRef [[⟨Role.user, "hi", none⟩]] ⟨0⟩).2 []) 0
        = readArray [[⟨Role.user, "hi", none⟩]] 0 :=
  ⟨(getHistory_returns_fresh_copy [[⟨Role.user, "hi", none⟩]] ⟨0⟩
      (by decide)).1,
   (getHistory_returns_fresh_copy [[⟨Role.user, "hi", none⟩]] ⟨0⟩
      (by decide)).2.2 []⟩

end LLMToolkit
